import Mathlib

/-!
Verification of the SysPulse core against its specification.

The embedded code is the current revision of the repository:
the samplers `CpuMonitor::getMetric` and `RamMonitor::getMetric`
(src/monitor.cpp, src/monitor.hpp) and the SQLite store
`DatabaseManager::connect` / `initTables` / `insertMetric`
(db_manager.cpp, the revision whose `insertMetric` takes a `Metric`).

Modelling choices, uniform throughout:
  - `ULARGE_INTEGER.QuadPart` / `ULONGLONG` values are natural numbers
    below `2^64`; the wrapping 64-bit subtraction and addition of the C
    code are written with an explicit `% 2^64`.
  - C++ `double` arithmetic on the metric value is modelled as exact
    rational arithmetic (the claims are about the formula, and every
    quantity involved is integer-valued before the final division).
  - The external OS and SQLite calls (`GetSystemTimes`,
    `GlobalMemoryStatusEx`, `sqlite3_open`, `sqlite3_exec`,
    `sqlite3_prepare_v2`, `sqlite3_step`) are inputs to the embedded
    functions: each call's outcome is an explicit argument, and the
    contents of the `metrics` table are an explicit list of rows.
-/

/-- `2^64`, the modulus of `ULONGLONG` / `ULARGE_INTEGER.QuadPart`
arithmetic. -/
def u64 : Nat := 2 ^ 64

/-- Wrapping 64-bit subtraction `a - b` of two `ULONGLONG` operands, for
`a, b < 2^64` (C unsigned subtraction wraps modulo `2^64`). -/
def sub64 (a b : Nat) : Nat := (a + u64 - b) % u64

/-- The `Metric` struct of monitor.hpp: component, metric name, numeric
value (`double`, modelled as `ℚ`), unit, and Unix timestamp (`long long`,
modelled as `Int`). -/
structure Metric where
  component : String
  metric : String
  value : ℚ
  unit : String
  timestamp : Int
deriving DecidableEq

/-- The private state of `CpuMonitor`: the previous cumulative counters
`lastIdleTime`, `lastKernelTime`, `lastUserTime`
(`ULARGE_INTEGER.QuadPart` values). -/
structure CpuMonitor where
  lastIdleTime : Nat
  lastKernelTime : Nat
  lastUserTime : Nat
deriving DecidableEq

/-- One successful `GetSystemTimes` reading, already converted by
`fileTimeToInt`: cumulative idle, kernel and user tick counts since
boot. -/
structure SystemTimes where
  idleTime : Nat
  kernelTime : Nat
  userTime : Nat
deriving DecidableEq

/-- `CpuMonitor::CpuMonitor()`: the previous times start at zero
(the "unset" sentinel). -/
def CpuMonitor.init : CpuMonitor := ⟨0, 0, 0⟩

/-- `CpuMonitor::getMetric()`.  The one external input is the
`GetSystemTimes` call: `none` models a failed call, `some s` a successful
reading; `ts` is the wall-clock timestamp taken at the top of the call.
Returns the produced `std::optional<Metric>` together with the sampler
state after the call.  Mirrors src/monitor.cpp lines 51-103: on OS
failure return `nullopt` (state untouched); if `lastIdleTime == 0` store
the reading as baseline and return `nullopt`; otherwise compute the three
wrapping deltas, replace the baseline, let `totalSystem = deltaKernel +
deltaUser`, and produce value `0.0` when `totalSystem == 0`, else
`(1 - deltaIdle/totalSystem) * 100.0`. -/
def CpuMonitor.getMetric (mon : CpuMonitor) (sys : Option SystemTimes)
    (ts : Int) : Option Metric × CpuMonitor :=
  match sys with
  | none => (none, mon)
  | some s =>
    if mon.lastIdleTime = 0 then
      (none, ⟨s.idleTime, s.kernelTime, s.userTime⟩)
    else
      let deltaIdle := sub64 s.idleTime mon.lastIdleTime
      let deltaKernel := sub64 s.kernelTime mon.lastKernelTime
      let deltaUser := sub64 s.userTime mon.lastUserTime
      let mon' : CpuMonitor := ⟨s.idleTime, s.kernelTime, s.userTime⟩
      let totalSystem := (deltaKernel + deltaUser) % u64
      let value : ℚ :=
        if totalSystem = 0 then 0
        else (1 - (deltaIdle : ℚ) / (totalSystem : ℚ)) * 100
      (some { component := "CPU", metric := "Usage", value := value,
              unit := "%", timestamp := ts }, mon')

/-- `RamMonitor::getMetric()`.  `mem` is the outcome of
`GlobalMemoryStatusEx`: `none` a failed call, `some load` a successful one
with `dwMemoryLoad = load` (a `DWORD`).  On success the value is the raw
load cast to `double` (exact, as a 32-bit integer); on failure
`nullopt`. -/
def RamMonitor.getMetric (mem : Option Nat) (ts : Int) : Option Metric :=
  match mem with
  | none => none
  | some load =>
    some { component := "RAM", metric := "Usage", value := (load : ℚ),
           unit := "%", timestamp := ts }

/-- The `DatabaseManager` state: `db` records whether the SQLite handle is
non-null (a connection is held). -/
structure DatabaseManager where
  db : Bool
deriving DecidableEq

/-- `DatabaseManager::DatabaseManager()`: `db(nullptr)`. -/
def DatabaseManager.init : DatabaseManager := ⟨false⟩

/-- Outcomes of the SQLite calls made during `connect`: whether
`sqlite3_open` returns `SQLITE_OK`; whether, on open failure, it
nevertheless left an allocated handle in `db`; and whether the
`sqlite3_exec` of the `CREATE TABLE IF NOT EXISTS metrics` DDL inside
`initTables` returns `SQLITE_OK`. -/
structure DbEnv where
  openOk : Bool
  handleSetOnFail : Bool
  execOk : Bool
deriving DecidableEq

/-- `DatabaseManager::initTables()`: runs the idempotent `CREATE TABLE IF
NOT EXISTS metrics` DDL with `sqlite3_exec` and returns whether it
succeeded (on failure the error message is freed and `false` returned;
the handle is not touched). -/
def DatabaseManager.initTables (env : DbEnv) : Bool := env.execOk

/-- `DatabaseManager::connect(dbPath)`, db_manager.cpp lines 49-64.
`sqlite3_open` overwrites the handle.  If it fails, the code closes the
handle if one was allocated, nulls it, and returns `false`.  If it
succeeds, `connect` returns `initTables()` with the handle left open. -/
def DatabaseManager.connect (_m : DatabaseManager) (env : DbEnv) :
    Bool × DatabaseManager :=
  if env.openOk then
    (DatabaseManager.initTables env, ⟨true⟩)
  else
    let m1 : DatabaseManager := ⟨env.handleSetOnFail⟩
    (false, if m1.db then ⟨false⟩ else m1)

/-- `DatabaseManager::~DatabaseManager()` (store close): closes the handle
if non-null and nulls it. -/
def DatabaseManager.close (_m : DatabaseManager) : DatabaseManager :=
  ⟨false⟩

/-- Outcomes of the SQLite calls made during `insertMetric`: whether
`sqlite3_prepare_v2` and `sqlite3_step` succeed. -/
structure InsertEnv where
  prepareOk : Bool
  stepOk : Bool
deriving DecidableEq

/-- `DatabaseManager::insertMetric(metric)`, db_manager.cpp lines 142-167.
`rows` models the contents of the `metrics` table.  Guard: null handle
returns `false` at once.  A failed `sqlite3_prepare_v2` returns `false`
(no statement was produced).  The single-statement `INSERT` appends its
row exactly when `sqlite3_step` returns `SQLITE_DONE`; a step that fails
writes nothing (SQLite single-statement atomicity).  The prepared
statement is finalized on both the step-failure and the success path. -/
def DatabaseManager.insertMetric (m : DatabaseManager) (rows : List Metric)
    (env : InsertEnv) (metric : Metric) : Bool × List Metric :=
  if !m.db then (false, rows)
  else if !env.prepareOk then (false, rows)
  else if !env.stepOk then (false, rows)
  else (true, rows ++ [metric])

/-- Helper: the wrapping 64-bit subtraction agrees with plain subtraction
on in-range, ordered operands. -/
theorem sub64_eq {a b : Nat} (hba : b ≤ a) (ha : a < u64) :
    sub64 a b = a - b := by
  have h1 : a + u64 - b = a - b + u64 := by omega
  have h2 : a - b < u64 := lt_of_le_of_lt (Nat.sub_le a b) ha
  simp [sub64, h1, Nat.add_mod_right, Nat.mod_eq_of_lt h2]

/-- Helper: the wrapping subtraction of a counter from itself is zero. -/
theorem sub64_self (a : Nat) : sub64 a a = 0 := by
  have h1 : a + u64 - a = u64 := by omega
  simp [sub64, h1]

/-- Helper (shared by the formula and range claims): with a baseline set,
monotone in-range counters and a positive busy delta, `getMetric` produces
the metric whose value is `(1 - deltaIdle/total) * 100` with
`deltaIdle = idleNow - idlePrev` and
`total = (kernelNow - kernelPrev) + (userNow - userPrev)`. -/
theorem cpu_getMetric_formula (mon : CpuMonitor) (s : SystemTimes) (ts : Int)
    (hbase : mon.lastIdleTime ≠ 0)
    (hi : mon.lastIdleTime ≤ s.idleTime)
    (hk : mon.lastKernelTime ≤ s.kernelTime)
    (hu : mon.lastUserTime ≤ s.userTime)
    (hiu : s.idleTime < u64) (hku : s.kernelTime < u64)
    (huu : s.userTime < u64)
    (htlt : (s.kernelTime - mon.lastKernelTime) +
      (s.userTime - mon.lastUserTime) < u64)
    (ht : 0 < (s.kernelTime - mon.lastKernelTime) +
      (s.userTime - mon.lastUserTime)) :
    (CpuMonitor.getMetric mon (some s) ts).1 =
      some { component := "CPU", metric := "Usage",
             value := (1 - ((s.idleTime - mon.lastIdleTime : ℕ) : ℚ) /
               (((s.kernelTime - mon.lastKernelTime) +
                 (s.userTime - mon.lastUserTime) : ℕ) : ℚ)) * 100,
             unit := "%", timestamp := ts } := by
  have hdk : sub64 s.kernelTime mon.lastKernelTime =
      s.kernelTime - mon.lastKernelTime := sub64_eq hk hku
  have hdu : sub64 s.userTime mon.lastUserTime =
      s.userTime - mon.lastUserTime := sub64_eq hu huu
  have hdi : sub64 s.idleTime mon.lastIdleTime =
      s.idleTime - mon.lastIdleTime := sub64_eq hi hiu
  simp only [CpuMonitor.getMetric, if_neg hbase, hdk, hdu, hdi,
    Nat.mod_eq_of_lt htlt, if_neg (Nat.pos_iff_ne_zero.mp ht)]

/-- Claim C2: for a freshly constructed differential sampler, the first
call that obtains a successful OS reading returns no value, and after it
the stored baseline (idle, kernel, user) equals that first raw reading. -/
theorem cpu_first_call_baseline (s : SystemTimes) (ts : Int) :
    CpuMonitor.getMetric CpuMonitor.init (some s) ts =
      (none, ⟨s.idleTime, s.kernelTime, s.userTime⟩) := by
  simp [CpuMonitor.getMetric, CpuMonitor.init]

/-- Claim C7: when the underlying `GetSystemTimes` call fails, the
sampler produces no Metric and its stored baseline is unchanged. -/
theorem cpu_os_failure_state_unchanged (mon : CpuMonitor) (ts : Int) :
    CpuMonitor.getMetric mon none ts = (none, mon) := rfl

/-- Claim C10: whenever the stored idle baseline is zero — including after
a valid prior reading whose cumulative idle count was exactly zero — a
successful call re-baselines and produces no Metric: the unset-state
sentinel collides with a genuine zero idle count. -/
theorem cpu_idle_zero_sentinel (mon : CpuMonitor) (s : SystemTimes)
    (ts : Int) (h : mon.lastIdleTime = 0) :
    CpuMonitor.getMetric mon (some s) ts =
      (none, ⟨s.idleTime, s.kernelTime, s.userTime⟩) := by
  simp [CpuMonitor.getMetric, h]

/-- Witness for C10: the sampler holds a valid prior reading
(idle 0, kernel 200, user 100); the next successful reading
(idle 10, kernel 300, user 200) is swallowed as a new baseline. -/
theorem cpu_idle_zero_sentinel_witness :
    CpuMonitor.getMetric ⟨0, 200, 100⟩ (some ⟨10, 300, 200⟩) 5 =
      (none, ⟨10, 300, 200⟩) :=
  cpu_idle_zero_sentinel ⟨0, 200, 100⟩ ⟨10, 300, 200⟩ 5 rfl

/-- Claim C3: after a baseline exists, with monotone in-range counters and
`total = (kernelNow - kernelPrev) + (userNow - userPrev) > 0`, the
produced Metric's value equals `(1 - deltaIdle/total) * 100`. -/
theorem cpu_delta_formula (mon : CpuMonitor) (s : SystemTimes) (ts : Int)
    (hbase : mon.lastIdleTime ≠ 0)
    (hi : mon.lastIdleTime ≤ s.idleTime)
    (hk : mon.lastKernelTime ≤ s.kernelTime)
    (hu : mon.lastUserTime ≤ s.userTime)
    (hiu : s.idleTime < u64) (hku : s.kernelTime < u64)
    (huu : s.userTime < u64)
    (htlt : (s.kernelTime - mon.lastKernelTime) +
      (s.userTime - mon.lastUserTime) < u64)
    (ht : 0 < (s.kernelTime - mon.lastKernelTime) +
      (s.userTime - mon.lastUserTime)) :
    (CpuMonitor.getMetric mon (some s) ts).1 =
      some { component := "CPU", metric := "Usage",
             value := (1 - ((s.idleTime - mon.lastIdleTime : ℕ) : ℚ) /
               (((s.kernelTime - mon.lastKernelTime) +
                 (s.userTime - mon.lastUserTime) : ℕ) : ℚ)) * 100,
             unit := "%", timestamp := ts } :=
  cpu_getMetric_formula mon s ts hbase hi hk hu hiu hku huu htlt ht

/-- Witness for C3: the synthetic readings idle 100→150, kernel 200→240,
user 100→120 yield value `(1 - 50/60) * 100`. -/
theorem cpu_delta_formula_witness :
    (CpuMonitor.getMetric ⟨100, 200, 100⟩ (some ⟨150, 240, 120⟩) 7).1 =
      some { component := "CPU", metric := "Usage",
             value := (1 - (50 : ℚ) / 60) * 100,
             unit := "%", timestamp := 7 } := by
  have h := cpu_delta_formula ⟨100, 200, 100⟩ ⟨150, 240, 120⟩ 7
    (by norm_num) (by norm_num) (by norm_num) (by norm_num)
    (by norm_num [u64]) (by norm_num [u64]) (by norm_num [u64])
    (by norm_num [u64]) (by norm_num)
  simpa using h

/-- Claim C5: with a baseline present, a successive reading whose elapsed
kernel and user tick deltas are both zero (`total == 0`) produces a Metric
with value `0.0` — the division branch is not taken. -/
theorem cpu_zero_interval (mon : CpuMonitor) (s : SystemTimes) (ts : Int)
    (hbase : mon.lastIdleTime ≠ 0)
    (hk : s.kernelTime = mon.lastKernelTime)
    (hu : s.userTime = mon.lastUserTime) :
    (CpuMonitor.getMetric mon (some s) ts).1 =
      some { component := "CPU", metric := "Usage", value := 0,
             unit := "%", timestamp := ts } := by
  simp [CpuMonitor.getMetric, if_neg hbase, hk, hu, sub64_self]

/-- Witness for C5: idle advances (100→180) while kernel and user stand
still, so `total = 0` and the value is `0.0`. -/
theorem cpu_zero_interval_witness :
    (CpuMonitor.getMetric ⟨100, 200, 300⟩ (some ⟨180, 200, 300⟩) 3).1 =
      some { component := "CPU", metric := "Usage", value := 0,
             unit := "%", timestamp := 3 } :=
  cpu_zero_interval ⟨100, 200, 300⟩ ⟨180, 200, 300⟩ 3
    (by norm_num) rfl rfl

/-- Claim C6: after a baseline exists, whenever `total > 0` and
`deltaIdle ≤ total` (with in-range monotone counters), the produced value
lies in `[0, 100]`, with no clamping anywhere in the computation. -/
theorem cpu_value_in_range (mon : CpuMonitor) (s : SystemTimes) (ts : Int)
    (hbase : mon.lastIdleTime ≠ 0)
    (hi : mon.lastIdleTime ≤ s.idleTime)
    (hk : mon.lastKernelTime ≤ s.kernelTime)
    (hu : mon.lastUserTime ≤ s.userTime)
    (hiu : s.idleTime < u64) (hku : s.kernelTime < u64)
    (huu : s.userTime < u64)
    (htlt : (s.kernelTime - mon.lastKernelTime) +
      (s.userTime - mon.lastUserTime) < u64)
    (ht : 0 < (s.kernelTime - mon.lastKernelTime) +
      (s.userTime - mon.lastUserTime))
    (hdile : s.idleTime - mon.lastIdleTime ≤
      (s.kernelTime - mon.lastKernelTime) +
      (s.userTime - mon.lastUserTime)) :
    ∃ m : Metric, (CpuMonitor.getMetric mon (some s) ts).1 = some m ∧
      0 ≤ m.value ∧ m.value ≤ 100 := by
  refine ⟨_, cpu_getMetric_formula mon s ts hbase hi hk hu hiu hku huu
    htlt ht, ?_, ?_⟩ <;>
  · have htq : (0 : ℚ) < (((s.kernelTime - mon.lastKernelTime) +
        (s.userTime - mon.lastUserTime) : ℕ) : ℚ) := by exact_mod_cast ht
    have h1 : ((s.idleTime - mon.lastIdleTime : ℕ) : ℚ) /
        (((s.kernelTime - mon.lastKernelTime) +
          (s.userTime - mon.lastUserTime) : ℕ) : ℚ) ≤ 1 :=
      (div_le_one htq).mpr (by exact_mod_cast hdile)
    have h2 : (0 : ℚ) ≤ ((s.idleTime - mon.lastIdleTime : ℕ) : ℚ) /
        (((s.kernelTime - mon.lastKernelTime) +
          (s.userTime - mon.lastUserTime) : ℕ) : ℚ) :=
      div_nonneg (by positivity) (le_of_lt htq)
    simp only
    nlinarith

/-- Witness for C6: the synthetic readings idle 100→150, kernel 200→240,
user 100→120 produce a value inside `[0, 100]`. -/
theorem cpu_value_in_range_witness :
    ∃ m : Metric,
      (CpuMonitor.getMetric ⟨100, 200, 100⟩ (some ⟨150, 240, 120⟩) 7).1 =
        some m ∧ 0 ≤ m.value ∧ m.value ≤ 100 :=
  cpu_value_in_range ⟨100, 200, 100⟩ ⟨150, 240, 120⟩ 7
    (by norm_num) (by norm_num) (by norm_num) (by norm_num)
    (by norm_num [u64]) (by norm_num [u64]) (by norm_num [u64])
    (by norm_num [u64]) (by norm_num) (by norm_num)

/-- Claim C8: the absolute (RAM) sampler returns, on a successful OS
query reporting load `L`, a Metric whose value is exactly `L` cast to
`double`, with no transformation; on a failed query it returns no
Metric. -/
theorem ram_exact_value (load : Nat) (ts : Int) :
    RamMonitor.getMetric (some load) ts =
      some { component := "RAM", metric := "Usage", value := (load : ℚ),
             unit := "%", timestamp := ts } ∧
    RamMonitor.getMetric none ts = none := ⟨rfl, rfl⟩

/-- Counterexample to claim C1 as stated: when `sqlite3_open` succeeds but
the schema initialization fails, `connect` returns failure with the
database handle still open (non-null) — the schema-failure path does not
close and null the handle before returning. -/
theorem connect_claim_counterexample :
    (DatabaseManager.connect DatabaseManager.init
      ⟨true, false, false⟩).1 = false ∧
    (DatabaseManager.connect DatabaseManager.init
      ⟨true, false, false⟩).2.db = true := ⟨rfl, rfl⟩

/-- Claim C1 (amended): after a failed `connect`, the handle is closed and
null exactly when `sqlite3_open` itself failed; on the
schema-initialization-failure path the handle remains open, to be
released only by the destructor. -/
theorem connect_failure_handle (env : DbEnv)
    (h : (DatabaseManager.connect DatabaseManager.init env).1 = false) :
    (DatabaseManager.connect DatabaseManager.init env).2.db =
      env.openOk := by
  obtain ⟨o, hs, e⟩ := env
  cases o <;> cases hs <;> cases e <;>
    simp_all [DatabaseManager.connect, DatabaseManager.initTables]

/-- Witness for C1 (amended): a failed `sqlite3_open` that still allocated
a handle ends with the handle closed and null. -/
theorem connect_failure_handle_witness :
    (DatabaseManager.connect DatabaseManager.init
      ⟨false, true, true⟩).2.db = (⟨false, true, true⟩ : DbEnv).openOk :=
  connect_failure_handle ⟨false, true, true⟩ rfl

/-- Claim C4: `insertMetric` succeeds exactly when the handle is open and
both SQLite calls succeed, and the table afterwards is the old rows plus
exactly the one new row on success, and exactly the old rows on every
failure path — insertion is atomic per call. -/
theorem insert_atomic (m : DatabaseManager) (rows : List Metric)
    (env : InsertEnv) (metric : Metric) :
    (DatabaseManager.insertMetric m rows env metric).1 =
      (m.db && env.prepareOk && env.stepOk) ∧
    (DatabaseManager.insertMetric m rows env metric).2 =
      (if (DatabaseManager.insertMetric m rows env metric).1 = true
       then rows ++ [metric] else rows) := by
  obtain ⟨d⟩ := m
  obtain ⟨p, st⟩ := env
  cases d <;> cases p <;> cases st <;>
    simp [DatabaseManager.insertMetric]

/-- Counterexample to claim C9 as stated: a store that was never
successfully opened — its `connect` returned failure on the
schema-initialization path — retains an open handle, and a subsequent
`insertMetric` on it can return success and append a row (in the code:
the `metrics` table pre-exists, so prepare and step succeed even though
the earlier `sqlite3_exec` had failed). -/
theorem insert_claim_counterexample :
    (DatabaseManager.connect DatabaseManager.init
      ⟨true, false, false⟩).1 = false ∧
    DatabaseManager.insertMetric
      (DatabaseManager.connect DatabaseManager.init
        ⟨true, false, false⟩).2
      [] ⟨true, true⟩ ⟨"CPU", "Usage", 42, "%", 0⟩ =
      (true, [⟨"CPU", "Usage", 42, "%", 0⟩]) := ⟨rfl, rfl⟩

/-- Claim C9 (amended): on every store whose handle is null — freshly
constructed, left by a `connect` whose `sqlite3_open` itself failed, or
already closed — `insertMetric` returns failure cleanly and appends no
row; a store whose `connect` failed only at schema initialization is not
in this set, since it retains an open handle. -/
theorem insert_null_handle (m : DatabaseManager) (rows : List Metric)
    (env : InsertEnv) (metric : Metric) (h : m.db = false) :
    DatabaseManager.insertMetric m rows env metric = (false, rows) := by
  simp [DatabaseManager.insertMetric, h]

/-- Witness for C9 (amended): an insert on the freshly constructed,
never-opened store fails and leaves the table empty. -/
theorem insert_null_handle_witness :
    DatabaseManager.insertMetric DatabaseManager.init []
      ⟨true, true⟩ ⟨"RAM", "Usage", 50, "%", 1⟩ = (false, []) :=
  insert_null_handle DatabaseManager.init [] ⟨true, true⟩
    ⟨"RAM", "Usage", 50, "%", 1⟩ rfl
